import Mathlib

/-
  Shallow embedding of the Unicorn Launchpad Solana program
  (src/contracts/program/src/lib.rs).

  Modelling conventions:
  * Machine integers are Nat with explicit bounds.  Rust's checked u64
    arithmetic is embedded as checked_add / checked_sub / checked_mul /
    checked_div returning Option, exactly mirroring the source's
    checked_* calls.  The source's plain `+=` / `-=` operators compile
    (in release mode, as deployed on-chain) to wrapping arithmetic, so
    they are embedded as addition modulo 2^64 (u64) or 2^8 (u8).
  * Pubkeys are modelled as Nat identifiers.  PDA derivation
    (Pubkey.find_program_address) is an abstract parameter
    fpa : List Seed -> Nat × Nat (address, bump): the handlers only build
    seed lists and compare the derived address with a provided key, so
    the hash internals are irrelevant to every claim.
  * External effects issued through invoke / invoke_signed (SOL transfer,
    token mint, token burn) are recorded in a trace list, so that a
    handler's result shows which side effects were issued before a
    failure.  Account metadata read by the handlers (signer flags,
    owners, balances, token-account contents) is passed in explicit
    environment records.
  * i64 timestamps are modelled as Int.
-/

def U64_MOD : Nat := 2 ^ 64

/-- Rust `u64::checked_add`. -/
def checked_add (a b : Nat) : Option Nat :=
  if a + b < U64_MOD then some (a + b) else none

/-- Rust `u64::checked_sub`. -/
def checked_sub (a b : Nat) : Option Nat :=
  if b ≤ a then some (a - b) else none

/-- Rust `u64::checked_mul`. -/
def checked_mul (a b : Nat) : Option Nat :=
  if a * b < U64_MOD then some (a * b) else none

/-- Rust `u64::checked_div`: none exactly when the divisor is zero. -/
def checked_div (a b : Nat) : Option Nat :=
  if b = 0 then none else some (a / b)

/-- Source `calculate_tokens`: `amount.checked_div(current_price).unwrap_or(0)`. -/
def calculate_tokens (amount current_price : Nat) : Nat :=
  (checked_div amount current_price).getD 0

/-- Source `calculate_new_price`:
`1 + total_raised.checked_mul(100).unwrap_or(0).checked_div(funding_goal).unwrap_or(0)`. -/
def calculate_new_price (total_raised funding_goal : Nat) : Nat :=
  1 + (checked_div ((checked_mul total_raised 100).getD 0) funding_goal).getD 0

/-- Source `Project` account structure (strings kept as raw byte lists). -/
structure Project where
  authority : Nat
  name : List Nat
  symbol : List Nat
  funding_goal : Nat
  total_raised : Nat
  token_price : Nat
  is_active : Bool
  bump : Nat
  token_mint : Nat
  milestone_count : Nat
  proposal_count : Nat
deriving DecidableEq

/-- Source `Proposal` account structure. -/
structure Proposal where
  creator : Nat
  title : List Nat
  description : List Nat
  milestone_id : Nat
  yes_votes : Nat
  no_votes : Nat
  is_executed : Bool
  created_at : Int
  voting_end : Int
deriving DecidableEq

/-- Source `Milestone` account structure. -/
structure Milestone where
  title : List Nat
  description : List Nat
  amount : Nat
  is_completed : Bool
  completed_at : Int
  has_proposal : Bool
deriving DecidableEq

/-- Error codes surfaced by the program: the program's own
`UnicornFactoryError` variants together with the `ProgramError` variants
the handlers return directly. -/
inductive ProgErr where
  | ProjectNotActive
  | FundingGoalReached
  | Overflow
  | InvalidAmount
  | InvalidProjectAccount
  | InvalidAuthority
  | ProposalNotFound
  | ProposalAlreadyExecuted
  | VotingPeriodEnded
  | AlreadyVoted
  | InvalidMilestone
  | MilestoneAlreadyCompleted
  | VotingPeriodNotEnded
  | ProposalDidNotPass
  | MilestoneAlreadyHasProposal
  | MissingRequiredSignature
  | IncorrectProgramId
  | InvalidAccountData
  | InvalidInstructionData
  | UninitializedAccount
  | AccountAlreadyInitialized
deriving DecidableEq

/-- External side effects issued through invoke / invoke_signed. -/
inductive Effect where
  | transfer (src dst amount : Nat)
  | mintTo (dst amount : Nat)
  | burn (owner amount : Nat)
deriving DecidableEq

/-- One component of a PDA seed tuple. -/
inductive Seed where
  | tag (bytes : List Nat)
  | key (k : Nat)
  | byte (b : Nat)
deriving DecidableEq

/-- ASCII bytes of the literal seed `b"project"`. -/
def projectSeed : List Nat := [112, 114, 111, 106, 101, 99, 116]

/-- ASCII bytes of the literal seed `b"proposal"`. -/
def proposalSeed : List Nat := [112, 114, 111, 112, 111, 115, 97, 108]

/-- ASCII bytes of the literal seed `b"milestone"`. -/
def milestoneSeed : List Nat := [109, 105, 108, 101, 115, 116, 111, 110, 101]

/-- Account metadata consumed by `process_initialize_project`. -/
structure InitEnv where
  authority_is_signer : Bool
  authorityKey : Nat
  system_program_ok : Bool
  token_program_ok : Bool
  tokenMintKey : Nat
  projectKey : Nat
  projectAccountData : List Nat
deriving DecidableEq

/-- Source `process_initialize_project`: signer, program-id, PDA and
double-initialization checks, then the fresh `Project` record with
`total_raised = 0`, `token_price = 1`, `is_active = true`. -/
def process_initialize_project (fpa : List Seed → Nat × Nat) (env : InitEnv)
    (name symbol : List Nat) (funding_goal : Nat) : Except ProgErr Project :=
  if env.authority_is_signer = false then .error .MissingRequiredSignature
  else if env.system_program_ok = false then .error .IncorrectProgramId
  else if env.token_program_ok = false then .error .IncorrectProgramId
  else if (fpa [Seed.tag projectSeed, Seed.key env.authorityKey]).1 ≠ env.projectKey then
    .error .InvalidProjectAccount
  else if env.projectAccountData.any (fun x => x ≠ 0) then .error .InvalidProjectAccount
  else .ok
    { authority := env.authorityKey
      name := name
      symbol := symbol
      funding_goal := funding_goal
      total_raised := 0
      token_price := 1
      is_active := true
      bump := (fpa [Seed.tag projectSeed, Seed.key env.authorityKey]).2
      token_mint := env.tokenMintKey
      milestone_count := 0
      proposal_count := 0 }

/-- Account metadata consumed by `process_contribute` / `process_buy_tokens`. -/
structure TradeEnv where
  is_signer : Bool
  callerKey : Nat
  callerTokenKey : Nat
  projectKey : Nat
deriving DecidableEq

/-- The SOL transfer and token mint issued by contribute / buy before the
state update (the mint quantity is `calculate_tokens amount price`). -/
def tradeEffects (env : TradeEnv) (project : Project) (amount : Nat) : List Effect :=
  [Effect.transfer env.callerKey env.projectKey amount,
   Effect.mintTo env.callerTokenKey (calculate_tokens amount project.token_price)]

/-- Source `process_contribute`: guards, then SOL transfer and token mint
(recorded as effects), then the checked `total_raised` update, price
recomputation and the deactivation check. -/
def process_contribute (env : TradeEnv) (project : Project) (amount : Nat) :
    List Effect × Except ProgErr Project :=
  if env.is_signer = false then ([], .error .MissingRequiredSignature)
  else if project.is_active = false then ([], .error .ProjectNotActive)
  else if project.funding_goal ≤ project.total_raised then ([], .error .FundingGoalReached)
  else
    match checked_add project.total_raised amount with
    | none => (tradeEffects env project amount, .error .Overflow)
    | some tr =>
        (tradeEffects env project amount, .ok { project with
          total_raised := tr
          token_price := calculate_new_price tr project.funding_goal
          is_active := if project.funding_goal ≤ tr then false else project.is_active })

/-- Source `process_buy_tokens`: identical to contribute except that there
is no eager `FundingGoalReached` check. -/
def process_buy_tokens (env : TradeEnv) (project : Project) (amount : Nat) :
    List Effect × Except ProgErr Project :=
  if env.is_signer = false then ([], .error .MissingRequiredSignature)
  else if project.is_active = false then ([], .error .ProjectNotActive)
  else
    match checked_add project.total_raised amount with
    | none => (tradeEffects env project amount, .error .Overflow)
    | some tr =>
        (tradeEffects env project amount, .ok { project with
          total_raised := tr
          token_price := calculate_new_price tr project.funding_goal
          is_active := if project.funding_goal ≤ tr then false else project.is_active })

/-- Account metadata consumed by `process_sell_tokens` (the seller token
account fields mirror the unpacked `spl_token::state::Account`). -/
structure SellEnv where
  seller_is_signer : Bool
  token_program_ok : Bool
  system_program_ok : Bool
  sellerKey : Nat
  projectTokenKey : Nat
  sellerTokenInitialized : Bool
  sellerTokenOwnedByTokenProgram : Bool
  sellerTokenDataLenOk : Bool
  sellerTokenAmount : Nat
  sellerTokenMint : Nat
  sellerTokenOwner : Nat
  projectLamports : Nat
  sellerLamports : Nat
deriving DecidableEq

/-- Source `process_sell_tokens`.  Returns the effect trace plus, on
success, the updated project and the post-transfer (project, seller)
lamport balances.  The manual lamport `-=` cannot underflow (guarded by
the balance check); the seller-side `+=` wraps as release-mode u64. -/
def process_sell_tokens (env : SellEnv) (project : Project) (amount : Nat) :
    List Effect × Except ProgErr (Project × Nat × Nat) :=
  if env.seller_is_signer = false then ([], .error .MissingRequiredSignature)
  else if env.token_program_ok = false then ([], .error .IncorrectProgramId)
  else if env.system_program_ok = false then ([], .error .IncorrectProgramId)
  else if project.is_active = false then ([], .error .ProjectNotActive)
  else if project.token_mint ≠ env.projectTokenKey then ([], .error .InvalidAccountData)
  else if env.sellerTokenInitialized = false then ([], .error .UninitializedAccount)
  else if env.sellerTokenOwnedByTokenProgram = false then ([], .error .IncorrectProgramId)
  else if env.sellerTokenDataLenOk = false then ([], .error .InvalidAccountData)
  else if env.sellerTokenAmount < amount then ([], .error .InvalidAmount)
  else if env.sellerTokenMint ≠ env.projectTokenKey then ([], .error .InvalidAccountData)
  else if env.sellerTokenOwner ≠ env.sellerKey then ([], .error .InvalidAccountData)
  else
    match checked_mul amount project.token_price with
    | none => ([], .error .Overflow)
    | some sol_to_return =>
      if env.projectLamports < sol_to_return then ([], .error .InvalidAmount)
      else if env.projectLamports < sol_to_return then
        ([Effect.burn env.sellerKey amount], .error .InvalidAmount)
      else
        match checked_sub project.total_raised sol_to_return with
        | none => ([Effect.burn env.sellerKey amount], .error .Overflow)
        | some tr =>
            ([Effect.burn env.sellerKey amount], .ok ({ project with
              total_raised := tr
              token_price := calculate_new_price tr project.funding_goal
              is_active := if project.funding_goal ≤ tr then false else project.is_active },
              env.projectLamports - sol_to_return,
              (env.sellerLamports + sol_to_return) % U64_MOD))

/-- Account metadata consumed by `process_vote`. -/
structure VoteEnv where
  voter_is_signer : Bool
  system_program_ok : Bool
  projectKey : Nat
  proposalKey : Nat
deriving DecidableEq

/-- Source `process_vote`.  The expected proposal PDA is derived from the
single byte `proposal_id as u8` (modelled as `proposal_id % 256`); the
vote-counter `+= 1` is release-mode u64 wrapping addition. -/
def process_vote (fpa : List Seed → Nat × Nat) (env : VoteEnv)
    (project : Project) (proposal : Proposal)
    (proposal_id : Nat) (vote : Bool) (now : Int) : Except ProgErr Proposal :=
  if env.voter_is_signer = false then .error .MissingRequiredSignature
  else if env.system_program_ok = false then .error .IncorrectProgramId
  else if (fpa [Seed.tag proposalSeed, Seed.key env.projectKey,
                Seed.byte (proposal_id % 256)]).1 ≠ env.proposalKey then
    .error .IncorrectProgramId
  else if proposal.is_executed = true then .error .ProposalAlreadyExecuted
  else if proposal.voting_end < now then .error .VotingPeriodEnded
  else if vote = true then
    .ok { proposal with yes_votes := (proposal.yes_votes + 1) % U64_MOD }
  else
    .ok { proposal with no_votes := (proposal.no_votes + 1) % U64_MOD }

/-- Account metadata consumed by `process_create_proposal`. -/
structure CreateProposalEnv where
  system_program_ok : Bool
  authority_is_signer : Bool
  authorityKey : Nat
  projectKey : Nat
  proposalKey : Nat
  milestoneKey : Nat
  proposalAccountNonEmpty : Bool
deriving DecidableEq

/-- Source `process_create_proposal`: returns the fresh proposal
(`voting_end = now + 180`), the milestone with `has_proposal` set, and the
project whose `proposal_count` is incremented by a release-mode u8
(wrapping) addition. -/
def process_create_proposal (fpa : List Seed → Nat × Nat) (env : CreateProposalEnv)
    (project : Project) (milestone : Milestone)
    (title description : List Nat) (milestone_id : Nat) (now : Int) :
    Except ProgErr (Proposal × Milestone × Project) :=
  if env.system_program_ok = false then .error .IncorrectProgramId
  else if env.authority_is_signer = false ∨ env.authorityKey ≠ project.authority then
    .error .InvalidAuthority
  else if (fpa [Seed.tag milestoneSeed, Seed.key env.projectKey,
                Seed.byte milestone_id]).1 ≠ env.milestoneKey then
    .error .IncorrectProgramId
  else if milestone.has_proposal = true then .error .MilestoneAlreadyHasProposal
  else if (fpa [Seed.tag proposalSeed, Seed.key env.projectKey,
                Seed.byte project.proposal_count]).1 ≠ env.proposalKey then
    .error .IncorrectProgramId
  else if env.proposalAccountNonEmpty = true then .error .AccountAlreadyInitialized
  else .ok
    ({ creator := env.authorityKey
       title := title
       description := description
       milestone_id := milestone_id
       yes_votes := 0
       no_votes := 0
       is_executed := false
       created_at := now
       voting_end := now + 180 },
     { milestone with has_proposal := true },
     { project with proposal_count := (project.proposal_count + 1) % 256 })

/-- Account metadata consumed by `process_release_funds`. -/
structure ReleaseEnv where
  system_program_ok : Bool
  authority_is_signer : Bool
  authorityKey : Nat
  projectKey : Nat
  proposalKey : Nat
  milestoneKey : Nat
  projectLamports : Nat
  authorityLamports : Nat
deriving DecidableEq

/-- Source `process_release_funds`.  The expected proposal PDA is derived
from the single byte `proposal_id as u8`; on success the result carries
the executed proposal, the completed milestone (its `completed_at`
untouched) and the post-transfer (project, authority) lamport balances. -/
def process_release_funds (fpa : List Seed → Nat × Nat) (env : ReleaseEnv)
    (project : Project) (proposal : Proposal) (milestone : Milestone)
    (proposal_id : Nat) (now : Int) :
    Except ProgErr (Proposal × Milestone × Nat × Nat) :=
  if env.system_program_ok = false then .error .IncorrectProgramId
  else if env.authority_is_signer = false ∨ env.authorityKey ≠ project.authority then
    .error .InvalidAuthority
  else if (fpa [Seed.tag proposalSeed, Seed.key env.projectKey,
                Seed.byte (proposal_id % 256)]).1 ≠ env.proposalKey then
    .error .IncorrectProgramId
  else if proposal.is_executed = true then .error .ProposalAlreadyExecuted
  else if now ≤ proposal.voting_end then .error .VotingPeriodNotEnded
  else if proposal.yes_votes ≤ proposal.no_votes then .error .ProposalDidNotPass
  else if (fpa [Seed.tag milestoneSeed, Seed.key env.projectKey,
                Seed.byte proposal.milestone_id]).1 ≠ env.milestoneKey then
    .error .IncorrectProgramId
  else if env.projectLamports < milestone.amount then .error .InvalidAmount
  else .ok
    ({ proposal with is_executed := true },
     { milestone with is_completed := true },
     env.projectLamports - milestone.amount,
     (env.authorityLamports + milestone.amount) % U64_MOD)

/-- Account metadata consumed by `process_add_milestone`. -/
structure AddMilestoneEnv where
  system_program_ok : Bool
  authority_is_signer : Bool
  authorityKey : Nat
  projectKey : Nat
  milestoneKey : Nat
  milestoneAccountNonEmpty : Bool
deriving DecidableEq

/-- Source `process_add_milestone`: returns the fresh milestone and the
project whose `milestone_count` is incremented by a release-mode u8
(wrapping) addition. -/
def process_add_milestone (fpa : List Seed → Nat × Nat) (env : AddMilestoneEnv)
    (project : Project) (title description : List Nat) (amount : Nat) :
    Except ProgErr (Milestone × Project) :=
  if env.system_program_ok = false then .error .IncorrectProgramId
  else if env.authority_is_signer = false ∨ env.authorityKey ≠ project.authority then
    .error .InvalidAuthority
  else if (fpa [Seed.tag milestoneSeed, Seed.key env.projectKey,
                Seed.byte project.milestone_count]).1 ≠ env.milestoneKey then
    .error .IncorrectProgramId
  else if env.milestoneAccountNonEmpty = true then .error .AccountAlreadyInitialized
  else .ok
    ({ title := title
       description := description
       amount := amount
       is_completed := false
       completed_at := 0
       has_proposal := false },
     { project with milestone_count := (project.milestone_count + 1) % 256 })

/-- One funding-path operation together with the account metadata its
handler reads. -/
inductive Op where
  | contribute (env : TradeEnv) (amount : Nat)
  | buy (env : TradeEnv) (amount : Nat)
  | sell (env : SellEnv) (amount : Nat)
deriving DecidableEq

/-- The project-state transition of one operation (effects discarded;
sell's lamport balances projected away). -/
def applyOp (op : Op) (p : Project) : Except ProgErr Project :=
  match op with
  | .contribute env a => (process_contribute env p a).2
  | .buy env a => (process_buy_tokens env p a).2
  | .sell env a => ((process_sell_tokens env p a).2).map (fun r => r.1)

/-- Run a sequence of operations; a failed operation leaves the persisted
state unchanged (the host rolls back the whole failed instruction). -/
def runOps (ops : List Op) (p : Project) : Project :=
  ops.foldl (fun s op => match applyOp op s with
    | .ok s1 => s1
    | .error _ => s) p

/-- Little-endian value of a byte list (used for the 4- and 8-byte slices
fed to `u32::from_le_bytes` / `u64::from_le_bytes`). -/
def leNat : List Nat → Nat
  | [] => 0
  | b :: bs => b + 256 * leNat bs

/-- The k little-endian bytes of n (n < 256^k round-trips through `leNat`). -/
def leBytes : Nat → Nat → List Nat
  | 0, _ => []
  | k + 1, n => n % 256 :: leBytes k (n / 256)

/-- RFC 3629 UTF-8 validity of a byte list, as enforced by Rust's
`String::from_utf8` (no overlongs, no surrogates, max U+10FFFF). -/
def utf8Valid : List Nat → Bool
  | [] => true
  | b :: rest =>
    if b ≤ 0x7F then utf8Valid rest
    else if 0xC2 ≤ b ∧ b ≤ 0xDF then
      match rest with
      | c1 :: r => if 0x80 ≤ c1 ∧ c1 ≤ 0xBF then utf8Valid r else false
      | [] => false
    else if b = 0xE0 then
      match rest with
      | c1 :: c2 :: r =>
        if 0xA0 ≤ c1 ∧ c1 ≤ 0xBF ∧ 0x80 ≤ c2 ∧ c2 ≤ 0xBF then utf8Valid r else false
      | _ => false
    else if (0xE1 ≤ b ∧ b ≤ 0xEC) ∨ b = 0xEE ∨ b = 0xEF then
      match rest with
      | c1 :: c2 :: r =>
        if 0x80 ≤ c1 ∧ c1 ≤ 0xBF ∧ 0x80 ≤ c2 ∧ c2 ≤ 0xBF then utf8Valid r else false
      | _ => false
    else if b = 0xED then
      match rest with
      | c1 :: c2 :: r =>
        if 0x80 ≤ c1 ∧ c1 ≤ 0x9F ∧ 0x80 ≤ c2 ∧ c2 ≤ 0xBF then utf8Valid r else false
      | _ => false
    else if b = 0xF0 then
      match rest with
      | c1 :: c2 :: c3 :: r =>
        if 0x90 ≤ c1 ∧ c1 ≤ 0xBF ∧ 0x80 ≤ c2 ∧ c2 ≤ 0xBF ∧ 0x80 ≤ c3 ∧ c3 ≤ 0xBF then
          utf8Valid r else false
      | _ => false
    else if 0xF1 ≤ b ∧ b ≤ 0xF3 then
      match rest with
      | c1 :: c2 :: c3 :: r =>
        if 0x80 ≤ c1 ∧ c1 ≤ 0xBF ∧ 0x80 ≤ c2 ∧ c2 ≤ 0xBF ∧ 0x80 ≤ c3 ∧ c3 ≤ 0xBF then
          utf8Valid r else false
      | _ => false
    else if b = 0xF4 then
      match rest with
      | c1 :: c2 :: c3 :: r =>
        if 0x80 ≤ c1 ∧ c1 ≤ 0x8F ∧ 0x80 ≤ c2 ∧ c2 ≤ 0xBF ∧ 0x80 ≤ c3 ∧ c3 ≤ 0xBF then
          utf8Valid r else false
      | _ => false
    else false

/-- Source `UnicornFactoryInstruction` (strings as validated byte lists). -/
inductive UnicornFactoryInstruction where
  | InitializeProject (name symbol : List Nat) (funding_goal : Nat)
  | Contribute (amount : Nat)
  | BuyTokens (amount : Nat)
  | SellTokens (amount : Nat)
  | CreateProposal (title description : List Nat) (milestone_id : Nat)
  | Vote (proposal_id : Nat) (vote : Bool)
  | ReleaseFunds (proposal_id : Nat)
  | AddMilestone (title description : List Nat) (amount : Nat)
  | CompleteMilestone (milestone_id : Nat)
deriving DecidableEq

/-- Tag-0 payload: u32 nameLen, u32 symbolLen, name, symbol, u64 fundingGoal. -/
def unpack0 (rest : List Nat) : Except ProgErr UnicornFactoryInstruction :=
  if rest.length < 8 then .error .InvalidInstructionData
  else
    let name_len := leNat (rest.take 4)
    let symbol_len := leNat ((rest.drop 4).take 4)
    if rest.length < 8 + name_len + symbol_len + 8 then .error .InvalidInstructionData
    else
      let nameBytes := (rest.drop 8).take name_len
      if utf8Valid nameBytes = false then .error .InvalidInstructionData
      else
        let symbolBytes := ((rest.drop 8).drop name_len).take symbol_len
        if utf8Valid symbolBytes = false then .error .InvalidInstructionData
        else
          let funding_goal := leNat ((((rest.drop 8).drop name_len).drop symbol_len).take 8)
          .ok (.InitializeProject nameBytes symbolBytes funding_goal)

/-- Tag 1/2/3 payload: a single u64 amount. -/
def unpackAmount (rest : List Nat)
    (mk : Nat → UnicornFactoryInstruction) : Except ProgErr UnicornFactoryInstruction :=
  if rest.length < 8 then .error .InvalidInstructionData
  else .ok (mk (leNat (rest.take 8)))

/-- Tag-4 payload: u32 titleLen, u32 descLen, title, desc, u8 milestoneId
(the title begins at offset 8, right after the two length fields). -/
def unpack4 (rest : List Nat) : Except ProgErr UnicornFactoryInstruction :=
  if rest.length < 8 then .error .InvalidInstructionData
  else
    let title_len := leNat (rest.take 4)
    let description_len := leNat ((rest.drop 4).take 4)
    if rest.length < 8 + title_len + description_len + 1 then .error .InvalidInstructionData
    else
      let titleBytes := (rest.drop 8).take title_len
      if utf8Valid titleBytes = false then .error .InvalidInstructionData
      else
        let descBytes := ((rest.drop 8).drop title_len).take description_len
        if utf8Valid descBytes = false then .error .InvalidInstructionData
        else
          let milestone_id := rest.getD (8 + title_len + description_len) 0
          .ok (.CreateProposal titleBytes descBytes milestone_id)

/-- Tag-5 payload: u64 proposalId, u8 voteFlag. -/
def unpack5 (rest : List Nat) : Except ProgErr UnicornFactoryInstruction :=
  if rest.length < 9 then .error .InvalidInstructionData
  else .ok (.Vote (leNat (rest.take 8)) (rest.getD 8 0 != 0))

/-- Tag-6 payload: u64 proposalId. -/
def unpack6 (rest : List Nat) : Except ProgErr UnicornFactoryInstruction :=
  if rest.length < 8 then .error .InvalidInstructionData
  else .ok (.ReleaseFunds (leNat (rest.take 8)))

/-- Tag-7 payload as the code reads it: the two u32 length fields sit at
offsets 0..8, but the title slice starts at offset 32
(`rest[32..32 + title_len]`), and the minimum length is 32. -/
def unpack7 (rest : List Nat) : Except ProgErr UnicornFactoryInstruction :=
  if rest.length < 32 then .error .InvalidInstructionData
  else
    let title_len := leNat (rest.take 4)
    let description_len := leNat ((rest.drop 4).take 4)
    if rest.length < 32 + title_len + description_len + 8 then .error .InvalidInstructionData
    else
      let titleBytes := (rest.drop 32).take title_len
      if utf8Valid titleBytes = false then .error .InvalidInstructionData
      else
        let descBytes := ((rest.drop 32).drop title_len).take description_len
        if utf8Valid descBytes = false then .error .InvalidInstructionData
        else
          let amount := leNat ((((rest.drop 32).drop title_len).drop description_len).take 8)
          .ok (.AddMilestone titleBytes descBytes amount)

/-- Tag-8 payload: u8 milestoneId. -/
def unpack8 (rest : List Nat) : Except ProgErr UnicornFactoryInstruction :=
  match rest with
  | [] => .error .InvalidInstructionData
  | b :: _ => .ok (.CompleteMilestone b)

/-- Source `UnicornFactoryInstruction::unpack`. -/
def UnicornFactoryInstruction.unpack (input : List Nat) :
    Except ProgErr UnicornFactoryInstruction :=
  match input with
  | [] => .error .InvalidInstructionData
  | tag :: rest =>
    if tag = 0 then unpack0 rest
    else if tag = 1 then unpackAmount rest .Contribute
    else if tag = 2 then unpackAmount rest .BuyTokens
    else if tag = 3 then unpackAmount rest .SellTokens
    else if tag = 4 then unpack4 rest
    else if tag = 5 then unpack5 rest
    else if tag = 6 then unpack6 rest
    else if tag = 7 then unpack7 rest
    else if tag = 8 then unpack8 rest
    else .error .InvalidInstructionData

/-- Modelled from the spec (claim C8 wording, for comparison with
`unpack7`): tag-7 payload parsed as u32 titleLen, u32 descLen, then the
title bytes at offset 8 directly after the two length fields, then the
description, then a u64 amount. -/
def unpack7_specLayout (rest : List Nat) : Except ProgErr UnicornFactoryInstruction :=
  if rest.length < 8 then .error .InvalidInstructionData
  else
    let title_len := leNat (rest.take 4)
    let description_len := leNat ((rest.drop 4).take 4)
    if rest.length < 8 + title_len + description_len + 8 then .error .InvalidInstructionData
    else
      let titleBytes := (rest.drop 8).take title_len
      if utf8Valid titleBytes = false then .error .InvalidInstructionData
      else
        let descBytes := ((rest.drop 8).drop title_len).take description_len
        if utf8Valid descBytes = false then .error .InvalidInstructionData
        else
          let amount := leNat ((((rest.drop 8).drop title_len).drop description_len).take 8)
          .ok (.AddMilestone titleBytes descBytes amount)

/-- A concrete PDA-derivation function for witnesses: every seed tuple
derives address 0 with bump 255. -/
def fpa0 : List Seed → Nat × Nat := fun _ => (0, 255)

/-- Concrete initialize accounts for witnesses. -/
def exInitEnv : InitEnv :=
  { authority_is_signer := true
    authorityKey := 7
    system_program_ok := true
    token_program_ok := true
    tokenMintKey := 3
    projectKey := 0
    projectAccountData := [] }

/-- Concrete contribute/buy accounts for witnesses. -/
def exTradeEnv : TradeEnv :=
  { is_signer := true, callerKey := 5, callerTokenKey := 6, projectKey := 0 }

/-- A freshly initialized project with funding goal 1000. -/
def exProj : Project :=
  { authority := 9
    name := []
    symbol := []
    funding_goal := 1000
    total_raised := 0
    token_price := 1
    is_active := true
    bump := 255
    token_mint := 1
    milestone_count := 0
    proposal_count := 0 }

/-- `exProj` after deactivation. -/
def exProjInactive : Project := { exProj with is_active := false }

/-- An (artificial) active project already past its goal. -/
def exProjFull : Project := { exProj with total_raised := 1500, token_price := 151 }

/-- `exProj` after a successful buy of 100. -/
def exProjAfterBuy : Project := { exProj with total_raised := 100, token_price := 11 }

/-- The buy operation used in the sequence witnesses. -/
def exOpBuy : Op := Op.buy exTradeEnv 100

/-- Project produced by initialize with funding goal `2^64 - 1`
(authority 7, mint 3, as in `exInitEnv` under `fpa0`). -/
def exProjBig : Project :=
  { authority := 7
    name := []
    symbol := []
    funding_goal := 2 ^ 64 - 1
    total_raised := 0
    token_price := 1
    is_active := true
    bump := 255
    token_mint := 3
    milestone_count := 0
    proposal_count := 0 }

/-- `exProjBig` after contributing `2^63`: the stored price is 1 because
`total_raised * 100` overflows u64 inside `calculate_new_price`. -/
def exProjBig1 : Project := { exProjBig with total_raised := 2 ^ 63, token_price := 1 }

/-- Concrete vote accounts for witnesses (keys match `fpa0`). -/
def exVoteEnv : VoteEnv :=
  { voter_is_signer := true, system_program_ok := true, projectKey := 0, proposalKey := 0 }

/-- A live proposal whose yes-counter sits at `u64::MAX`. -/
def exProposalMax : Proposal :=
  { creator := 9
    title := []
    description := []
    milestone_id := 0
    yes_votes := 2 ^ 64 - 1
    no_votes := 0
    is_executed := false
    created_at := 0
    voting_end := 100 }

/-- `exProposalMax` after one more yes vote: the counter wrapped to 0. -/
def exProposalWrapped : Proposal := { exProposalMax with yes_votes := 0 }

/-- A proposal that passed 2 votes to 1, voting window ending at time 10. -/
def exProposalPassed : Proposal :=
  { creator := 9
    title := []
    description := []
    milestone_id := 0
    yes_votes := 2
    no_votes := 1
    is_executed := false
    created_at := 0
    voting_end := 10 }

/-- A milestone worth 500 (its `completed_at` deliberately nonzero, to
exhibit that Release leaves it untouched). -/
def exMilestone : Milestone :=
  { title := []
    description := []
    amount := 500
    is_completed := false
    completed_at := 7
    has_proposal := true }

/-- Concrete release accounts for witnesses (authority 9 = `exProj`'s). -/
def exReleaseEnv : ReleaseEnv :=
  { system_program_ok := true
    authority_is_signer := true
    authorityKey := 9
    projectKey := 0
    proposalKey := 0
    milestoneKey := 0
    projectLamports := 1000
    authorityLamports := 40 }

/-- Concrete well-formed sell accounts: balance 100 of mint 1 owned by
seller 5, project treasury 1000. -/
def exSellEnvOk : SellEnv :=
  { seller_is_signer := true
    token_program_ok := true
    system_program_ok := true
    sellerKey := 5
    projectTokenKey := 1
    sellerTokenInitialized := true
    sellerTokenOwnedByTokenProgram := true
    sellerTokenDataLenOk := true
    sellerTokenAmount := 100
    sellerTokenMint := 1
    sellerTokenOwner := 5
    projectLamports := 1000
    sellerLamports := 0 }

/-- `exSellEnvOk` with a credit account of the wrong mint. -/
def exSellEnvWrongMint : SellEnv := { exSellEnvOk with sellerTokenMint := 2 }

/-- `exSellEnvOk` with a nearly empty project treasury. -/
def exSellEnvPoor : SellEnv := { exSellEnvOk with projectLamports := 5 }

/-- A tag-7 instruction laid out exactly as claim C8 describes (titleLen 1,
descLen 0, the title byte at payload offset 8, then the u64 amount 5):
title "A", 18 bytes in total. -/
def exC8Bytes : List Nat :=
  [7, 1, 0, 0, 0, 0, 0, 0, 0, 65, 5, 0, 0, 0, 0, 0, 0, 0]

/-- C9: for all u64 values, `calculate_tokens amount price * price ≤ amount`
(floor-division property), `calculate_tokens amount price = 0` whenever
`amount < price`, and division by a zero price is guarded, yielding 0. -/
theorem calculate_tokens_floor_div (amount price : Nat)
    (hA : amount < U64_MOD) (hP : price < U64_MOD) :
    calculate_tokens amount price * price ≤ amount
    ∧ (amount < price → calculate_tokens amount price = 0)
    ∧ calculate_tokens amount 0 = 0 := by
  refine ⟨?_, ?_, rfl⟩
  · unfold calculate_tokens checked_div
    split_ifs with h
    · simp
    · simpa using Nat.div_mul_le_self amount price
  · intro hlt
    unfold calculate_tokens checked_div
    split_ifs with h
    · rfl
    · simpa using Nat.div_eq_of_lt hlt

theorem calculate_tokens_floor_div_witness :
    calculate_tokens 7 2 * 2 ≤ 7
    ∧ (7 < 2 → calculate_tokens 7 2 = 0)
    ∧ calculate_tokens 7 0 = 0 :=
  calculate_tokens_floor_div 7 2 (by decide) (by decide)

/-- C2 counterexample: when `total_raised * 100` overflows u64,
`calculate_new_price` silently falls back to a price of 1 instead of
failing with Overflow (it cannot fail at all); the claimed mathematical
value `1 + floor(totalRaised * 100 / fundingGoal)` differs. -/
theorem calculate_new_price_mul_overflow_cex :
    calculate_new_price (2 ^ 58) 1 = 1
    ∧ 1 + 2 ^ 58 * 100 / 1 ≠ 1
    ∧ U64_MOD ≤ 2 ^ 58 * 100 := by
  refine ⟨rfl, by decide, by decide⟩

theorem calculate_new_price_cases (tr g : Nat) :
    (tr * 100 < U64_MOD → calculate_new_price tr g = 1 + tr * 100 / g)
    ∧ (U64_MOD ≤ tr * 100 → calculate_new_price tr g = 1)
    ∧ 1 ≤ calculate_new_price tr g := by
  refine ⟨fun h => ?_, fun h => ?_, ?_⟩
  · unfold calculate_new_price checked_mul checked_div
    rw [if_pos h]
    simp only [Option.getD_some]
    split_ifs with hg
    · simp [hg]
    · rfl
  · unfold calculate_new_price checked_mul checked_div
    rw [if_neg (show ¬tr * 100 < U64_MOD by omega)]
    simp only [Option.getD_none]
    split_ifs <;> simp
  · unfold calculate_new_price
    exact Nat.le_add_right 1 _

/-- C2 amended: `calculate_new_price` is total (it can never fail, with
Overflow or otherwise); it returns `1 + floor(totalRaised * 100 /
fundingGoal)` whenever the multiplication fits in u64 (the guarded
division by a zero goal contributing 0), and falls back to 1 when the
multiplication overflows; the result is always at least 1. -/
theorem calculate_new_price_spec (tr g : Nat) :
    (tr * 100 < U64_MOD → calculate_new_price tr g = 1 + tr * 100 / g)
    ∧ (U64_MOD ≤ tr * 100 → calculate_new_price tr g = 1)
    ∧ 1 ≤ calculate_new_price tr g :=
  calculate_new_price_cases tr g

theorem calculate_new_price_spec_witness :
    calculate_new_price 100 1000 = 1 + 100 * 100 / 1000
    ∧ calculate_new_price (2 ^ 59) 3 = 1 :=
  ⟨(calculate_new_price_spec 100 1000).1 (by decide),
   (calculate_new_price_spec (2 ^ 59) 3).2.1 (by decide)⟩

/-- C10: Vote and ReleaseFunds derive the expected proposal address from
the single byte `proposal_id as u8`, so both handlers behave identically
for `proposal_id` and `proposal_id % 256` on all inputs. -/
theorem vote_release_mod256 (fpa : List Seed → Nat × Nat) (venv : VoteEnv)
    (renv : ReleaseEnv) (project : Project) (proposal : Proposal)
    (milestone : Milestone) (proposal_id : Nat) (v : Bool) (now : Int) :
    process_vote fpa venv project proposal proposal_id v now
      = process_vote fpa venv project proposal (proposal_id % 256) v now
    ∧ process_release_funds fpa renv project proposal milestone proposal_id now
      = process_release_funds fpa renv project proposal milestone (proposal_id % 256) now := by
  have h : proposal_id % 256 % 256 = proposal_id % 256 :=
    Nat.mod_mod_of_dvd _ dvd_rfl
  constructor
  · simp only [process_vote, h]
  · simp only [process_release_funds, h]

/-- C6: with the caller signed, Contribute and Buy both fail with
ProjectNotActive on an inactive project; on an active project Contribute
fails with FundingGoalReached as soon as `total_raised ≥ funding_goal`,
before any transfer or mint effect is issued (empty effect trace); Buy
has no such eager goal check — it can never return FundingGoalReached. -/
theorem contribute_buy_guards (env : TradeEnv) (p : Project) (amount : Nat) :
    (env.is_signer = true → p.is_active = false →
      process_contribute env p amount = ([], .error .ProjectNotActive))
    ∧ (env.is_signer = true → p.is_active = false →
      process_buy_tokens env p amount = ([], .error .ProjectNotActive))
    ∧ (env.is_signer = true → p.is_active = true →
        p.funding_goal ≤ p.total_raised →
      process_contribute env p amount = ([], .error .FundingGoalReached))
    ∧ (process_buy_tokens env p amount).2 ≠ .error .FundingGoalReached := by
  refine ⟨fun hs ha => ?_, fun hs ha => ?_, fun hs ha hg => ?_, ?_⟩
  · simp [process_contribute, hs, ha]
  · simp [process_buy_tokens, hs, ha]
  · simp [process_contribute, hs, ha, hg]
  · unfold process_buy_tokens
    split_ifs
    · simp
    · simp
    · rcases hadd : checked_add p.total_raised amount with _ | tr <;> simp [hadd]

theorem contribute_buy_guards_witness :
    process_contribute exTradeEnv exProjInactive 5 = ([], .error .ProjectNotActive)
    ∧ process_buy_tokens exTradeEnv exProjInactive 5 = ([], .error .ProjectNotActive)
    ∧ process_contribute exTradeEnv exProjFull 5 = ([], .error .FundingGoalReached) :=
  ⟨(contribute_buy_guards exTradeEnv exProjInactive 5).1 rfl rfl,
   (contribute_buy_guards exTradeEnv exProjInactive 5).2.1 rfl rfl,
   (contribute_buy_guards exTradeEnv exProjFull 5).2.2.1 rfl rfl (by decide)⟩

/-- C1 counterexample: a state reachable by Initialize (goal `2^64 - 1`)
followed by a successful Contribute of `2^63` stores `token_price = 1`,
while `1 + floor(total_raised * 100 / funding_goal) = 51`: the claimed
formula fails once `total_raised * 100` overflows u64. -/
theorem token_price_invariant_cex :
    process_initialize_project fpa0 exInitEnv [] [] (2 ^ 64 - 1) = .ok exProjBig
    ∧ (process_contribute exTradeEnv exProjBig (2 ^ 63)).2 = .ok exProjBig1
    ∧ exProjBig1.token_price
        ≠ 1 + exProjBig1.total_raised * 100 / exProjBig1.funding_goal := by
  refine ⟨rfl, rfl, by decide⟩

/-- Characterization of a successful Contribute/Buy/Sell step: it can
only run on an active project, preserves the funding goal, stores
`calculate_new_price` of the new `total_raised`, and applies the
deactivation check to `is_active`. -/
theorem applyOp_eq_ok (op : Op) (p q : Project) (h : applyOp op p = .ok q) :
    p.is_active = true
    ∧ q.funding_goal = p.funding_goal
    ∧ q.token_price = calculate_new_price q.total_raised q.funding_goal
    ∧ q.is_active = (if p.funding_goal ≤ q.total_raised then false else p.is_active) := by
  cases op with
  | contribute env a =>
    simp only [applyOp] at h
    unfold process_contribute at h
    split_ifs at h with h1 h2 h3
    have ha : p.is_active = true := by
      cases hb : p.is_active
      · exact absurd hb h2
      · rfl
    rcases hadd : checked_add p.total_raised a with _ | tr <;> rw [hadd] at h
    · simp at h
    · injection h with h'
      subst h'
      exact ⟨ha, rfl, rfl, rfl⟩
  | buy env a =>
    simp only [applyOp] at h
    unfold process_buy_tokens at h
    split_ifs at h with h1 h2
    have ha : p.is_active = true := by
      cases hb : p.is_active
      · exact absurd hb h2
      · rfl
    rcases hadd : checked_add p.total_raised a with _ | tr <;> rw [hadd] at h
    · simp at h
    · injection h with h'
      subst h'
      exact ⟨ha, rfl, rfl, rfl⟩
  | sell env a =>
    simp only [applyOp] at h
    unfold process_sell_tokens at h
    have h1 : ¬env.seller_is_signer = false := by
      intro hc; rw [if_pos hc] at h; simp [Except.map] at h
    rw [if_neg h1] at h
    have h2 : ¬env.token_program_ok = false := by
      intro hc; rw [if_pos hc] at h; simp [Except.map] at h
    rw [if_neg h2] at h
    have h3 : ¬env.system_program_ok = false := by
      intro hc; rw [if_pos hc] at h; simp [Except.map] at h
    rw [if_neg h3] at h
    have h4 : ¬p.is_active = false := by
      intro hc; rw [if_pos hc] at h; simp [Except.map] at h
    rw [if_neg h4] at h
    have h5 : ¬p.token_mint ≠ env.projectTokenKey := by
      intro hc; rw [if_pos hc] at h; simp [Except.map] at h
    rw [if_neg h5] at h
    have h6 : ¬env.sellerTokenInitialized = false := by
      intro hc; rw [if_pos hc] at h; simp [Except.map] at h
    rw [if_neg h6] at h
    have h7 : ¬env.sellerTokenOwnedByTokenProgram = false := by
      intro hc; rw [if_pos hc] at h; simp [Except.map] at h
    rw [if_neg h7] at h
    have h8 : ¬env.sellerTokenDataLenOk = false := by
      intro hc; rw [if_pos hc] at h; simp [Except.map] at h
    rw [if_neg h8] at h
    have h9 : ¬env.sellerTokenAmount < a := by
      intro hc; rw [if_pos hc] at h; simp [Except.map] at h
    rw [if_neg h9] at h
    have h10 : ¬env.sellerTokenMint ≠ env.projectTokenKey := by
      intro hc; rw [if_pos hc] at h; simp [Except.map] at h
    rw [if_neg h10] at h
    have h11 : ¬env.sellerTokenOwner ≠ env.sellerKey := by
      intro hc; rw [if_pos hc] at h; simp [Except.map] at h
    rw [if_neg h11] at h
    have ha : p.is_active = true := by
      cases hb : p.is_active
      · exact absurd hb h4
      · rfl
    split at h
    · simp [Except.map] at h
    · rename_i sol hmul
      have h12 : ¬env.projectLamports < sol := by
        intro hc; rw [if_pos hc] at h; simp [Except.map] at h
      rw [if_neg h12, if_neg h12] at h
      split at h
      · simp [Except.map] at h
      · rename_i tr hsub
        injection h with h'
        subst h'
        exact ⟨ha, rfl, rfl, rfl⟩

/-- C1 amended: after every successful Initialize, Contribute, Buy or
Sell, the stored `token_price` equals
`calculate_new_price total_raised funding_goal` — never inconsistent with
`total_raised` — and this equals `1 + floor(total_raised * 100 /
funding_goal)` (quotient 0 when the goal is 0) whenever
`total_raised * 100` fits in u64; when that multiplication overflows the
stored price falls back to 1. -/
theorem token_price_invariant (fpa : List Seed → Nat × Nat) (ienv : InitEnv)
    (op : Op) (nm sy : List Nat) (g : Nat) (p p1 q : Project) :
    (process_initialize_project fpa ienv nm sy g = .ok p1 →
      p1.token_price = calculate_new_price p1.total_raised p1.funding_goal)
    ∧ (applyOp op p = .ok q →
      q.token_price = calculate_new_price q.total_raised q.funding_goal)
    ∧ (∀ tr fg : Nat, tr * 100 < U64_MOD →
      calculate_new_price tr fg = 1 + tr * 100 / fg) := by
  refine ⟨fun h => ?_, fun h => (applyOp_eq_ok op p q h).2.2.1,
    fun tr fg htr => (calculate_new_price_cases tr fg).1 htr⟩
  unfold process_initialize_project at h
  split_ifs at h with h1 h2 h3 h4 h5
  injection h with h'
  subst h'
  show (1 : Nat) = calculate_new_price 0 g
  unfold calculate_new_price checked_mul checked_div
  simp [U64_MOD]
  split_ifs <;> simp

theorem token_price_invariant_witness :
    exProjAfterBuy.token_price
      = calculate_new_price exProjAfterBuy.total_raised exProjAfterBuy.funding_goal :=
  (token_price_invariant fpa0 exInitEnv exOpBuy [] [] 0 exProj exProj exProjAfterBuy).2.1 rfl

/-- C7: along any Contribute/Buy/Sell sequence, every successful operation
leaves `is_active` false exactly when the new `total_raised` has reached
`funding_goal` (which no operation changes), and once a project is
inactive every operation fails, so the whole sequence leaves it
untouched: deactivation is one-way and no Sell ever reactivates. -/
theorem funding_deactivation (ops : List Op) (op : Op) (p q : Project) :
    (applyOp op p = .ok q →
      (q.is_active = true ↔ q.total_raised < q.funding_goal)
      ∧ q.funding_goal = p.funding_goal)
    ∧ (p.is_active = false → runOps ops p = p) := by
  constructor
  · intro h
    obtain ⟨ha, hg, _, hact⟩ := applyOp_eq_ok op p q h
    refine ⟨?_, hg⟩
    rw [hact, ha, hg]
    split_ifs with hle
    · constructor
      · intro hfalse
        exact absurd hfalse (by simp)
      · intro hlt
        exact absurd hle (not_le.mpr hlt)
    · constructor
      · intro _
        omega
      · intro _
        rfl
  · intro hin
    induction ops with
    | nil => rfl
    | cons o tl ih =>
      have key : ∀ z, applyOp o p ≠ .ok z := by
        intro z hz
        have hzz := (applyOp_eq_ok o p z hz).1
        rw [hin] at hzz
        exact Bool.noConfusion hzz
      show runOps tl (match applyOp o p with
        | .ok s1 => s1
        | .error _ => p) = p
      rcases hA : applyOp o p with e | z
      · exact ih
      · exact absurd hA (key z)

theorem funding_deactivation_witness :
    ((exProjAfterBuy.is_active = true
        ↔ exProjAfterBuy.total_raised < exProjAfterBuy.funding_goal)
      ∧ exProjAfterBuy.funding_goal = exProj.funding_goal)
    ∧ runOps [exOpBuy] exProjInactive = exProjInactive :=
  ⟨(funding_deactivation [] exOpBuy exProj exProjAfterBuy).1 rfl,
   (funding_deactivation [exOpBuy] exOpBuy exProjInactive exProjInactive).2 rfl⟩

/-- C3 counterexample: a Vote on a live proposal whose `yes_votes` counter
sits at `u64::MAX` succeeds and wraps the counter to 0 — the unchecked
`yes_votes += 1` does not fail with Overflow as claimed. -/
theorem overflow_handling_cex :
    process_vote fpa0 exVoteEnv exProj exProposalMax 0 true 0 = .ok exProposalWrapped
    ∧ exProposalMax.yes_votes = 2 ^ 64 - 1
    ∧ exProposalWrapped.yes_votes = 0 := ⟨rfl, rfl, rfl⟩

/-- C3 amended: the `total_raised` additions in Contribute/Buy, the refund
multiplication in Sell (and its `total_raised` subtraction) are checked
and fail with Overflow; but the `yes_votes`/`no_votes` increment in Vote
and the `milestone_count`/`proposal_count` increments in AddMilestone and
CreateProposal are unchecked release-mode additions that wrap modulo 2^64
(resp. 2^8) instead of failing. -/
theorem overflow_handling (fpa : List Seed → Nat × Nat) (tenv : TradeEnv)
    (senv : SellEnv) (venv : VoteEnv) (menv : AddMilestoneEnv)
    (cenv : CreateProposalEnv) (p : Project) (prop : Proposal) (ms : Milestone)
    (a pid mid amt : Nat) (ti de : List Nat) (now : Int) :
    (tenv.is_signer = true → p.is_active = true →
      p.total_raised < p.funding_goal → U64_MOD ≤ p.total_raised + a →
      (process_contribute tenv p a).2 = .error .Overflow)
    ∧ (tenv.is_signer = true → p.is_active = true →
      U64_MOD ≤ p.total_raised + a →
      (process_buy_tokens tenv p a).2 = .error .Overflow)
    ∧ (senv.seller_is_signer = true → senv.token_program_ok = true →
      senv.system_program_ok = true → p.is_active = true →
      p.token_mint = senv.projectTokenKey → senv.sellerTokenInitialized = true →
      senv.sellerTokenOwnedByTokenProgram = true → senv.sellerTokenDataLenOk = true →
      a ≤ senv.sellerTokenAmount → senv.sellerTokenMint = senv.projectTokenKey →
      senv.sellerTokenOwner = senv.sellerKey → U64_MOD ≤ a * p.token_price →
      (process_sell_tokens senv p a).2 = .error .Overflow)
    ∧ (senv.seller_is_signer = true → senv.token_program_ok = true →
      senv.system_program_ok = true → p.is_active = true →
      p.token_mint = senv.projectTokenKey → senv.sellerTokenInitialized = true →
      senv.sellerTokenOwnedByTokenProgram = true → senv.sellerTokenDataLenOk = true →
      a ≤ senv.sellerTokenAmount → senv.sellerTokenMint = senv.projectTokenKey →
      senv.sellerTokenOwner = senv.sellerKey → a * p.token_price < U64_MOD →
      a * p.token_price ≤ senv.projectLamports →
      p.total_raised < a * p.token_price →
      (process_sell_tokens senv p a).2 = .error .Overflow)
    ∧ (venv.voter_is_signer = true → venv.system_program_ok = true →
      (fpa [Seed.tag proposalSeed, Seed.key venv.projectKey,
            Seed.byte (pid % 256)]).1 = venv.proposalKey →
      prop.is_executed = false → now ≤ prop.voting_end →
      process_vote fpa venv p prop pid true now
        = .ok { prop with yes_votes := (prop.yes_votes + 1) % U64_MOD })
    ∧ (venv.voter_is_signer = true → venv.system_program_ok = true →
      (fpa [Seed.tag proposalSeed, Seed.key venv.projectKey,
            Seed.byte (pid % 256)]).1 = venv.proposalKey →
      prop.is_executed = false → now ≤ prop.voting_end →
      process_vote fpa venv p prop pid false now
        = .ok { prop with no_votes := (prop.no_votes + 1) % U64_MOD })
    ∧ (menv.system_program_ok = true → menv.authority_is_signer = true →
      menv.authorityKey = p.authority →
      (fpa [Seed.tag milestoneSeed, Seed.key menv.projectKey,
            Seed.byte p.milestone_count]).1 = menv.milestoneKey →
      menv.milestoneAccountNonEmpty = false →
      process_add_milestone fpa menv p ti de amt
        = .ok ({ title := ti, description := de, amount := amt,
                 is_completed := false, completed_at := 0, has_proposal := false },
               { p with milestone_count := (p.milestone_count + 1) % 256 }))
    ∧ (cenv.system_program_ok = true → cenv.authority_is_signer = true →
      cenv.authorityKey = p.authority →
      (fpa [Seed.tag milestoneSeed, Seed.key cenv.projectKey,
            Seed.byte mid]).1 = cenv.milestoneKey →
      ms.has_proposal = false →
      (fpa [Seed.tag proposalSeed, Seed.key cenv.projectKey,
            Seed.byte p.proposal_count]).1 = cenv.proposalKey →
      cenv.proposalAccountNonEmpty = false →
      process_create_proposal fpa cenv p ms ti de mid now
        = .ok ({ creator := cenv.authorityKey, title := ti, description := de,
                 milestone_id := mid, yes_votes := 0, no_votes := 0,
                 is_executed := false, created_at := now, voting_end := now + 180 },
               { ms with has_proposal := true },
               { p with proposal_count := (p.proposal_count + 1) % 256 })) := by
  refine ⟨fun hs ha hg hov => ?_, fun hs ha hov => ?_,
    fun hs htp hsp ha hm hi ho hl hba hmint howner hov => ?_,
    fun hs htp hsp ha hm hi ho hl hba hmint howner hfit htre hund => ?_,
    fun hs hsp hpda hex hnow => ?_,
    fun hs hsp hpda hex hnow => ?_,
    fun hsp hs hk hpda hne => ?_,
    fun hsp hs hk hpdam hhp hpdap hne => ?_⟩
  · unfold process_contribute
    rw [if_neg (show ¬tenv.is_signer = false by simp [hs]),
        if_neg (show ¬p.is_active = false by simp [ha]),
        if_neg (show ¬p.funding_goal ≤ p.total_raised by omega),
        show checked_add p.total_raised a = none from
          if_neg (show ¬p.total_raised + a < U64_MOD by omega)]
  · unfold process_buy_tokens
    rw [if_neg (show ¬tenv.is_signer = false by simp [hs]),
        if_neg (show ¬p.is_active = false by simp [ha]),
        show checked_add p.total_raised a = none from
          if_neg (show ¬p.total_raised + a < U64_MOD by omega)]
  · unfold process_sell_tokens
    rw [if_neg (show ¬senv.seller_is_signer = false by simp [hs]),
        if_neg (show ¬senv.token_program_ok = false by simp [htp]),
        if_neg (show ¬senv.system_program_ok = false by simp [hsp]),
        if_neg (show ¬p.is_active = false by simp [ha]),
        if_neg (show ¬p.token_mint ≠ senv.projectTokenKey by simp [hm]),
        if_neg (show ¬senv.sellerTokenInitialized = false by simp [hi]),
        if_neg (show ¬senv.sellerTokenOwnedByTokenProgram = false by simp [ho]),
        if_neg (show ¬senv.sellerTokenDataLenOk = false by simp [hl]),
        if_neg (show ¬senv.sellerTokenAmount < a by omega),
        if_neg (show ¬senv.sellerTokenMint ≠ senv.projectTokenKey by simp [hmint]),
        if_neg (show ¬senv.sellerTokenOwner ≠ senv.sellerKey by simp [howner]),
        show checked_mul a p.token_price = none from
          if_neg (show ¬a * p.token_price < U64_MOD by omega)]
  · unfold process_sell_tokens
    rw [if_neg (show ¬senv.seller_is_signer = false by simp [hs]),
        if_neg (show ¬senv.token_program_ok = false by simp [htp]),
        if_neg (show ¬senv.system_program_ok = false by simp [hsp]),
        if_neg (show ¬p.is_active = false by simp [ha]),
        if_neg (show ¬p.token_mint ≠ senv.projectTokenKey by simp [hm]),
        if_neg (show ¬senv.sellerTokenInitialized = false by simp [hi]),
        if_neg (show ¬senv.sellerTokenOwnedByTokenProgram = false by simp [ho]),
        if_neg (show ¬senv.sellerTokenDataLenOk = false by simp [hl]),
        if_neg (show ¬senv.sellerTokenAmount < a by omega),
        if_neg (show ¬senv.sellerTokenMint ≠ senv.projectTokenKey by simp [hmint]),
        if_neg (show ¬senv.sellerTokenOwner ≠ senv.sellerKey by simp [howner]),
        show checked_mul a p.token_price = some (a * p.token_price) from if_pos hfit]
    split
    · rename_i heq
      exact Option.noConfusion heq
    · rename_i sol heq
      injection heq with h'
      subst h'
      have hno : ¬senv.projectLamports < a * p.token_price := by omega
      rw [if_neg hno, if_neg hno,
          show checked_sub p.total_raised (a * p.token_price) = none from
            if_neg (show ¬a * p.token_price ≤ p.total_raised by omega)]
  · unfold process_vote
    rw [if_neg (show ¬venv.voter_is_signer = false by simp [hs]),
        if_neg (show ¬venv.system_program_ok = false by simp [hsp]),
        if_neg (show ¬(fpa [Seed.tag proposalSeed, Seed.key venv.projectKey,
          Seed.byte (pid % 256)]).1 ≠ venv.proposalKey by simp [hpda]),
        if_neg (show ¬prop.is_executed = true by simp [hex]),
        if_neg (show ¬prop.voting_end < now by omega),
        if_pos rfl]
  · unfold process_vote
    rw [if_neg (show ¬venv.voter_is_signer = false by simp [hs]),
        if_neg (show ¬venv.system_program_ok = false by simp [hsp]),
        if_neg (show ¬(fpa [Seed.tag proposalSeed, Seed.key venv.projectKey,
          Seed.byte (pid % 256)]).1 ≠ venv.proposalKey by simp [hpda]),
        if_neg (show ¬prop.is_executed = true by simp [hex]),
        if_neg (show ¬prop.voting_end < now by omega),
        if_neg (show ¬(false = true) by simp)]
  · unfold process_add_milestone
    rw [if_neg (show ¬menv.system_program_ok = false by simp [hsp]),
        if_neg (show ¬(menv.authority_is_signer = false
          ∨ menv.authorityKey ≠ p.authority) by simp [hs, hk]),
        if_neg (show ¬(fpa [Seed.tag milestoneSeed, Seed.key menv.projectKey,
          Seed.byte p.milestone_count]).1 ≠ menv.milestoneKey by simp [hpda]),
        if_neg (show ¬menv.milestoneAccountNonEmpty = true by simp [hne])]
  · unfold process_create_proposal
    rw [if_neg (show ¬cenv.system_program_ok = false by simp [hsp]),
        if_neg (show ¬(cenv.authority_is_signer = false
          ∨ cenv.authorityKey ≠ p.authority) by simp [hs, hk]),
        if_neg (show ¬(fpa [Seed.tag milestoneSeed, Seed.key cenv.projectKey,
          Seed.byte mid]).1 ≠ cenv.milestoneKey by simp [hpdam]),
        if_neg (show ¬ms.has_proposal = true by simp [hhp]),
        if_neg (show ¬(fpa [Seed.tag proposalSeed, Seed.key cenv.projectKey,
          Seed.byte p.proposal_count]).1 ≠ cenv.proposalKey by simp [hpdap]),
        if_neg (show ¬cenv.proposalAccountNonEmpty = true by simp [hne])]

theorem overflow_handling_witness :
    (process_contribute exTradeEnv
        { exProj with total_raised := 2 ^ 64 - 1, funding_goal := 2 ^ 64 - 1 + 7 } 2).2
      = .error .Overflow
    ∧ (process_sell_tokens exSellEnvOk exProj 10).2 = .error .Overflow
    ∧ process_vote fpa0 exVoteEnv exProj exProposalPassed 0 true 0
      = .ok { exProposalPassed with yes_votes := (2 + 1) % U64_MOD }
    ∧ process_vote fpa0 exVoteEnv exProj exProposalPassed 0 false 0
      = .ok { exProposalPassed with no_votes := (1 + 1) % U64_MOD } :=
  ⟨(overflow_handling fpa0 exTradeEnv exSellEnvOk exVoteEnv
      { system_program_ok := true, authority_is_signer := true, authorityKey := 9,
        projectKey := 0, milestoneKey := 0, milestoneAccountNonEmpty := false }
      { system_program_ok := true, authority_is_signer := true, authorityKey := 9,
        projectKey := 0, proposalKey := 0, milestoneKey := 0,
        proposalAccountNonEmpty := false }
      { exProj with total_raised := 2 ^ 64 - 1, funding_goal := 2 ^ 64 - 1 + 7 }
      exProposalPassed exMilestone 2 0 0 0 [] [] 0).1
      rfl rfl (by decide) (by decide),
   (overflow_handling fpa0 exTradeEnv exSellEnvOk exVoteEnv
      { system_program_ok := true, authority_is_signer := true, authorityKey := 9,
        projectKey := 0, milestoneKey := 0, milestoneAccountNonEmpty := false }
      { system_program_ok := true, authority_is_signer := true, authorityKey := 9,
        projectKey := 0, proposalKey := 0, milestoneKey := 0,
        proposalAccountNonEmpty := false }
      exProj exProposalPassed exMilestone 10 0 0 0 [] [] 0).2.2.2.1
      rfl rfl rfl rfl rfl rfl rfl rfl (by decide) rfl rfl (by decide) (by decide)
      (by decide),
   (overflow_handling fpa0 exTradeEnv exSellEnvOk exVoteEnv
      { system_program_ok := true, authority_is_signer := true, authorityKey := 9,
        projectKey := 0, milestoneKey := 0, milestoneAccountNonEmpty := false }
      { system_program_ok := true, authority_is_signer := true, authorityKey := 9,
        projectKey := 0, proposalKey := 0, milestoneKey := 0,
        proposalAccountNonEmpty := false }
      exProj exProposalPassed exMilestone 2 0 0 0 [] [] 0).2.2.2.2.1
      rfl rfl rfl rfl (by decide),
   (overflow_handling fpa0 exTradeEnv exSellEnvOk exVoteEnv
      { system_program_ok := true, authority_is_signer := true, authorityKey := 9,
        projectKey := 0, milestoneKey := 0, milestoneAccountNonEmpty := false }
      { system_program_ok := true, authority_is_signer := true, authorityKey := 9,
        projectKey := 0, proposalKey := 0, milestoneKey := 0,
        proposalAccountNonEmpty := false }
      exProj exProposalPassed exMilestone 2 0 0 0 [] [] 0).2.2.2.2.2.1
      rfl rfl rfl rfl (by decide)⟩

/-- C4 counterexample: selling with a credit account whose mint does not
match fails with InvalidAccountData, not with the claimed InvalidAmount. -/
theorem sell_invalid_amount_cex :
    (process_sell_tokens exSellEnvWrongMint exProj 10).2 = .error .InvalidAccountData
    ∧ ProgErr.InvalidAccountData ≠ ProgErr.InvalidAmount := ⟨rfl, by decide⟩

/-- C4 amended: with the earlier account checks passing, Sell fails with
InvalidAmount when the caller's credit balance is below `amount` and when
the treasury balance is below the refund `amount * token_price`; but a
credit-account mint mismatch or recorded-owner mismatch fails with
InvalidAccountData, not InvalidAmount. -/
theorem sell_error_cases (env : SellEnv) (p : Project) (a : Nat)
    (hs : env.seller_is_signer = true) (htp : env.token_program_ok = true)
    (hsp : env.system_program_ok = true) (ha : p.is_active = true)
    (hm : p.token_mint = env.projectTokenKey) (hi : env.sellerTokenInitialized = true)
    (ho : env.sellerTokenOwnedByTokenProgram = true)
    (hl : env.sellerTokenDataLenOk = true) :
    (env.sellerTokenAmount < a →
      (process_sell_tokens env p a).2 = .error .InvalidAmount)
    ∧ (a ≤ env.sellerTokenAmount → env.sellerTokenMint ≠ env.projectTokenKey →
      (process_sell_tokens env p a).2 = .error .InvalidAccountData)
    ∧ (a ≤ env.sellerTokenAmount → env.sellerTokenMint = env.projectTokenKey →
      env.sellerTokenOwner ≠ env.sellerKey →
      (process_sell_tokens env p a).2 = .error .InvalidAccountData)
    ∧ (a ≤ env.sellerTokenAmount → env.sellerTokenMint = env.projectTokenKey →
      env.sellerTokenOwner = env.sellerKey → a * p.token_price < U64_MOD →
      env.projectLamports < a * p.token_price →
      (process_sell_tokens env p a).2 = .error .InvalidAmount) := by
  have e1 : ¬env.seller_is_signer = false := by simp [hs]
  have e2 : ¬env.token_program_ok = false := by simp [htp]
  have e3 : ¬env.system_program_ok = false := by simp [hsp]
  have e4 : ¬p.is_active = false := by simp [ha]
  have e5 : ¬p.token_mint ≠ env.projectTokenKey := by simp [hm]
  have e6 : ¬env.sellerTokenInitialized = false := by simp [hi]
  have e7 : ¬env.sellerTokenOwnedByTokenProgram = false := by simp [ho]
  have e8 : ¬env.sellerTokenDataLenOk = false := by simp [hl]
  refine ⟨fun hba => ?_, fun hba hmint => ?_, fun hba hmint howner => ?_,
    fun hba hmint howner hfit hlam => ?_⟩
  · unfold process_sell_tokens
    rw [if_neg e1, if_neg e2, if_neg e3, if_neg e4, if_neg e5, if_neg e6,
        if_neg e7, if_neg e8, if_pos hba]
  · unfold process_sell_tokens
    rw [if_neg e1, if_neg e2, if_neg e3, if_neg e4, if_neg e5, if_neg e6,
        if_neg e7, if_neg e8, if_neg (show ¬env.sellerTokenAmount < a by omega),
        if_pos hmint]
  · unfold process_sell_tokens
    rw [if_neg e1, if_neg e2, if_neg e3, if_neg e4, if_neg e5, if_neg e6,
        if_neg e7, if_neg e8, if_neg (show ¬env.sellerTokenAmount < a by omega),
        if_neg (show ¬env.sellerTokenMint ≠ env.projectTokenKey by simp [hmint]),
        if_pos howner]
  · unfold process_sell_tokens
    rw [if_neg e1, if_neg e2, if_neg e3, if_neg e4, if_neg e5, if_neg e6,
        if_neg e7, if_neg e8, if_neg (show ¬env.sellerTokenAmount < a by omega),
        if_neg (show ¬env.sellerTokenMint ≠ env.projectTokenKey by simp [hmint]),
        if_neg (show ¬env.sellerTokenOwner ≠ env.sellerKey by simp [howner]),
        show checked_mul a p.token_price = some (a * p.token_price) from
          if_pos hfit]
    split
    · rename_i heq
      exact Option.noConfusion heq
    · rename_i sol heq
      injection heq with h'
      subst h'
      rw [if_pos hlam]

theorem sell_error_cases_witness :
    (process_sell_tokens exSellEnvOk exProj 200).2 = .error .InvalidAmount
    ∧ (process_sell_tokens exSellEnvPoor exProj 10).2 = .error .InvalidAmount :=
  ⟨(sell_error_cases exSellEnvOk exProj 200 rfl rfl rfl rfl rfl rfl rfl rfl).1
      (by decide),
   (sell_error_cases exSellEnvPoor exProj 10 rfl rfl rfl rfl rfl rfl rfl rfl).2.2.2
      (by decide) rfl rfl (by decide) (by decide)⟩

/-- C5: Release fails InvalidAuthority unless the caller signs as
`project.authority`, ProposalAlreadyExecuted if executed,
VotingPeriodNotEnded while `now ≤ voting_end`, ProposalDidNotPass when
`yes_votes ≤ no_votes`, and InvalidAmount when the treasury is below
`milestone.amount`; on success it moves exactly `milestone.amount` (the
value fixed at milestone creation) from the treasury to the authority,
sets `is_executed` and `is_completed`, and leaves `completed_at`
untouched. -/
theorem release_funds_spec (fpa : List Seed → Nat × Nat) (env : ReleaseEnv)
    (p : Project) (prop : Proposal) (ms : Milestone) (pid : Nat) (now : Int)
    (hsys : env.system_program_ok = true) :
    ((env.authority_is_signer = false ∨ env.authorityKey ≠ p.authority) →
      process_release_funds fpa env p prop ms pid now = .error .InvalidAuthority)
    ∧ (env.authority_is_signer = true → env.authorityKey = p.authority →
      (fpa [Seed.tag proposalSeed, Seed.key env.projectKey,
            Seed.byte (pid % 256)]).1 = env.proposalKey →
      (prop.is_executed = true →
        process_release_funds fpa env p prop ms pid now = .error .ProposalAlreadyExecuted)
      ∧ (prop.is_executed = false → now ≤ prop.voting_end →
        process_release_funds fpa env p prop ms pid now = .error .VotingPeriodNotEnded)
      ∧ (prop.is_executed = false → prop.voting_end < now →
          prop.yes_votes ≤ prop.no_votes →
        process_release_funds fpa env p prop ms pid now = .error .ProposalDidNotPass)
      ∧ ((fpa [Seed.tag milestoneSeed, Seed.key env.projectKey,
            Seed.byte prop.milestone_id]).1 = env.milestoneKey →
          prop.is_executed = false → prop.voting_end < now →
          prop.no_votes < prop.yes_votes →
        (env.projectLamports < ms.amount →
          process_release_funds fpa env p prop ms pid now = .error .InvalidAmount)
        ∧ (ms.amount ≤ env.projectLamports →
          process_release_funds fpa env p prop ms pid now
            = .ok ({ prop with is_executed := true },
                   { ms with is_completed := true },
                   env.projectLamports - ms.amount,
                   (env.authorityLamports + ms.amount) % U64_MOD)))) := by
  have esys : ¬env.system_program_ok = false := by simp [hsys]
  constructor
  · intro hbad
    unfold process_release_funds
    rw [if_neg esys,
        if_pos (show env.authority_is_signer = false ∨ env.authorityKey ≠ p.authority
          from hbad)]
  · intro hs hk hpda
    have ea : ¬(env.authority_is_signer = false ∨ env.authorityKey ≠ p.authority) := by
      simp [hs, hk]
    have ep : ¬(fpa [Seed.tag proposalSeed, Seed.key env.projectKey,
        Seed.byte (pid % 256)]).1 ≠ env.proposalKey := by simp [hpda]
    refine ⟨fun hex => ?_, fun hex hnow => ?_, fun hex hnow hvotes => ?_,
      fun hpdam hex hnow hvotes => ⟨fun hlam => ?_, fun hlam => ?_⟩⟩
    · unfold process_release_funds
      rw [if_neg esys, if_neg ea, if_neg ep, if_pos hex]
    · unfold process_release_funds
      rw [if_neg esys, if_neg ea, if_neg ep,
          if_neg (show ¬prop.is_executed = true by simp [hex]), if_pos hnow]
    · unfold process_release_funds
      rw [if_neg esys, if_neg ea, if_neg ep,
          if_neg (show ¬prop.is_executed = true by simp [hex]),
          if_neg (show ¬now ≤ prop.voting_end by omega), if_pos hvotes]
    · unfold process_release_funds
      rw [if_neg esys, if_neg ea, if_neg ep,
          if_neg (show ¬prop.is_executed = true by simp [hex]),
          if_neg (show ¬now ≤ prop.voting_end by omega),
          if_neg (show ¬prop.yes_votes ≤ prop.no_votes by omega),
          if_neg (show ¬(fpa [Seed.tag milestoneSeed, Seed.key env.projectKey,
            Seed.byte prop.milestone_id]).1 ≠ env.milestoneKey by simp [hpdam]),
          if_pos hlam]
    · unfold process_release_funds
      rw [if_neg esys, if_neg ea, if_neg ep,
          if_neg (show ¬prop.is_executed = true by simp [hex]),
          if_neg (show ¬now ≤ prop.voting_end by omega),
          if_neg (show ¬prop.yes_votes ≤ prop.no_votes by omega),
          if_neg (show ¬(fpa [Seed.tag milestoneSeed, Seed.key env.projectKey,
            Seed.byte prop.milestone_id]).1 ≠ env.milestoneKey by simp [hpdam]),
          if_neg (show ¬env.projectLamports < ms.amount by omega)]

theorem release_funds_spec_witness :
    process_release_funds fpa0 exReleaseEnv exProj exProposalPassed exMilestone 0 11
      = .ok ({ exProposalPassed with is_executed := true },
             { exMilestone with is_completed := true }, 500, 540)
    ∧ ({ exMilestone with is_completed := true } : Milestone).completed_at
        = exMilestone.completed_at :=
  ⟨(((release_funds_spec fpa0 exReleaseEnv exProj exProposalPassed exMilestone 0 11
      rfl).2 rfl rfl rfl).2.2.2 rfl rfl (by decide) (by decide)).2 (by decide),
   rfl⟩

theorem leBytes_length (k : Nat) : ∀ n : Nat, (leBytes k n).length = k := by
  induction k with
  | zero => intro n; rfl
  | succ k ih => intro n; simp [leBytes, ih]

theorem leNat_leBytes (k : Nat) : ∀ n : Nat, leNat (leBytes k n) = n % 256 ^ k := by
  induction k with
  | zero => intro n; simp [leBytes, leNat, Nat.mod_one]
  | succ k ih =>
    intro n
    simp only [leBytes, leNat, ih]
    rw [pow_succ']
    rw [Nat.mod_mul]

theorem take_append_of_length (l1 l2 : List Nat) (n : Nat) (h : l1.length = n) :
    (l1 ++ l2).take n = l1 := by
  subst h
  induction l1 with
  | nil => rfl
  | cons a t ih => simp [ih]

theorem drop_append_of_length (l1 l2 : List Nat) (n : Nat) (h : l1.length = n) :
    (l1 ++ l2).drop n = l2 := by
  subst h
  induction l1 with
  | nil => rfl
  | cons a t ih => simp [ih]

theorem take_len_self (l : List Nat) : l.take l.length = l := by
  induction l with
  | nil => rfl
  | cons a t ih => simp [ih]

theorem unpack7_eq (title desc pad amt8 : List Nat) (hp : pad.length = 24)
    (ha8 : amt8.length = 8) (htl : title.length < 2 ^ 32) (hdl : desc.length < 2 ^ 32) :
    unpack7 (leBytes 4 title.length ++ leBytes 4 desc.length ++ pad ++ title ++ desc ++ amt8)
      = if utf8Valid title = false then .error .InvalidInstructionData
        else if utf8Valid desc = false then .error .InvalidInstructionData
        else .ok (.AddMilestone title desc (leNat amt8)) := by
  have hpow : (256 : Nat) ^ 4 = 2 ^ 32 := by norm_num
  set R := leBytes 4 title.length ++ leBytes 4 desc.length ++ pad ++ title ++ desc ++ amt8
    with hR
  have hassoc2 : R = leBytes 4 title.length
      ++ (leBytes 4 desc.length ++ (pad ++ (title ++ (desc ++ amt8)))) := by
    rw [hR]
    simp [List.append_assoc]
  have hassoc : R = (leBytes 4 title.length ++ leBytes 4 desc.length ++ pad)
      ++ (title ++ (desc ++ amt8)) := by
    rw [hR]
    simp [List.append_assoc]
  have h32 : (leBytes 4 title.length ++ leBytes 4 desc.length ++ pad).length = 32 := by
    simp [leBytes_length, hp]
  have htake4 : R.take 4 = leBytes 4 title.length := by
    rw [hassoc2]
    exact take_append_of_length _ _ 4 (leBytes_length 4 title.length)
  have hdrop4 : R.drop 4 = leBytes 4 desc.length ++ (pad ++ (title ++ (desc ++ amt8))) := by
    rw [hassoc2]
    exact drop_append_of_length _ _ 4 (leBytes_length 4 title.length)
  have htake44 : (R.drop 4).take 4 = leBytes 4 desc.length := by
    rw [hdrop4]
    exact take_append_of_length _ _ 4 (leBytes_length 4 desc.length)
  have hdrop32 : R.drop 32 = title ++ (desc ++ amt8) := by
    rw [hassoc]
    exact drop_append_of_length _ _ 32 h32
  have hTlen : leNat (R.take 4) = title.length := by
    rw [htake4, leNat_leBytes, hpow]
    exact Nat.mod_eq_of_lt htl
  have hDlen : leNat ((R.drop 4).take 4) = desc.length := by
    rw [htake44, leNat_leBytes, hpow]
    exact Nat.mod_eq_of_lt hdl
  have hlenR : R.length = 40 + title.length + desc.length := by
    rw [hassoc]
    simp only [List.length_append, h32, ha8]
    omega
  have hTitle : (R.drop 32).take title.length = title := by
    rw [hdrop32]
    exact take_append_of_length _ _ _ rfl
  have hRest2 : (R.drop 32).drop title.length = desc ++ amt8 := by
    rw [hdrop32]
    exact drop_append_of_length _ _ _ rfl
  have hDesc : ((R.drop 32).drop title.length).take desc.length = desc := by
    rw [hRest2]
    exact take_append_of_length _ _ _ rfl
  have hAmt : (((R.drop 32).drop title.length).drop desc.length).take 8 = amt8 := by
    rw [hRest2, drop_append_of_length desc amt8 _ rfl, ← ha8]
    exact take_len_self amt8
  simp only [unpack7]
  rw [hTlen, hDlen, hTitle, hDesc, hAmt,
      if_neg (show ¬R.length < 32 by omega),
      if_neg (show ¬R.length < 32 + title.length + desc.length + 8 by omega)]

/-- C8 counterexample: an 18-byte tag-7 instruction laid out exactly as
the claim says (titleLen 1, descLen 0, title byte at payload offset 8,
u64 amount) is rejected by the code with InvalidInstructionData, while a
decoder following the claimed layout (`unpack7_specLayout`) accepts it:
the code actually reads the title from offset 32, not 8. -/
theorem addMilestone_offset_cex :
    UnicornFactoryInstruction.unpack exC8Bytes = .error .InvalidInstructionData
    ∧ unpack7_specLayout (exC8Bytes.drop 1) = .ok (.AddMilestone [65] [] 5) :=
  ⟨rfl, rfl⟩

/-- C8 amended: a tag-7 (AddMilestone) payload is parsed as u32 titleLen
and u32 descLen at offsets 0..8, then 24 ignored bytes, with the title
starting at offset 32, immediately followed by the description and the
u64 amount; payloads shorter than 32 bytes (or shorter than
`32 + titleLen + descLen + 8`) and malformed UTF-8 fail with
InvalidInstructionData. -/
theorem addMilestone_unpack_spec (title desc pad amt8 : List Nat) :
    (pad.length = 24 → amt8.length = 8 →
      title.length < 2 ^ 32 → desc.length < 2 ^ 32 →
      utf8Valid title = true → utf8Valid desc = true →
      UnicornFactoryInstruction.unpack
        (7 :: (leBytes 4 title.length ++ leBytes 4 desc.length
          ++ pad ++ title ++ desc ++ amt8))
        = .ok (.AddMilestone title desc (leNat amt8)))
    ∧ (pad.length = 24 → amt8.length = 8 →
      title.length < 2 ^ 32 → desc.length < 2 ^ 32 →
      utf8Valid title = false →
      UnicornFactoryInstruction.unpack
        (7 :: (leBytes 4 title.length ++ leBytes 4 desc.length
          ++ pad ++ title ++ desc ++ amt8))
        = .error .InvalidInstructionData)
    ∧ (pad.length = 24 → amt8.length = 8 →
      title.length < 2 ^ 32 → desc.length < 2 ^ 32 →
      utf8Valid title = true → utf8Valid desc = false →
      UnicornFactoryInstruction.unpack
        (7 :: (leBytes 4 title.length ++ leBytes 4 desc.length
          ++ pad ++ title ++ desc ++ amt8))
        = .error .InvalidInstructionData)
    ∧ (∀ rest : List Nat, rest.length < 32 →
      UnicornFactoryInstruction.unpack (7 :: rest) = .error .InvalidInstructionData)
    ∧ (∀ (tl dl : Nat) (pad2 tail : List Nat), pad2.length = 24 →
      tl < 2 ^ 32 → dl < 2 ^ 32 → tail.length < tl + dl + 8 →
      UnicornFactoryInstruction.unpack
        (7 :: (leBytes 4 tl ++ leBytes 4 dl ++ pad2 ++ tail))
        = .error .InvalidInstructionData) := by
  have hU : ∀ r : List Nat, UnicornFactoryInstruction.unpack (7 :: r) = unpack7 r :=
    fun _ => rfl
  have hpow : (256 : Nat) ^ 4 = 2 ^ 32 := by norm_num
  refine ⟨fun hp ha8 htl hdl hvt hvd => ?_, fun hp ha8 htl hdl hvt => ?_,
    fun hp ha8 htl hdl hvt hvd => ?_, fun rest hr => ?_,
    fun tl dl pad2 tail hp2 htl2 hdl2 htail => ?_⟩
  · rw [hU, unpack7_eq title desc pad amt8 hp ha8 htl hdl,
        if_neg (show ¬utf8Valid title = false by simp [hvt]),
        if_neg (show ¬utf8Valid desc = false by simp [hvd])]
  · rw [hU, unpack7_eq title desc pad amt8 hp ha8 htl hdl, if_pos hvt]
  · rw [hU, unpack7_eq title desc pad amt8 hp ha8 htl hdl,
        if_neg (show ¬utf8Valid title = false by simp [hvt]),
        if_pos hvd]
  · rw [hU]
    unfold unpack7
    rw [if_pos hr]
  · rw [hU]
    set R2 := leBytes 4 tl ++ leBytes 4 dl ++ pad2 ++ tail with hR2
    have hassoc2 : R2 = leBytes 4 tl ++ (leBytes 4 dl ++ (pad2 ++ tail)) := by
      rw [hR2]
      simp [List.append_assoc]
    have htake4 : R2.take 4 = leBytes 4 tl := by
      rw [hassoc2]
      exact take_append_of_length _ _ 4 (leBytes_length 4 tl)
    have hdrop4 : R2.drop 4 = leBytes 4 dl ++ (pad2 ++ tail) := by
      rw [hassoc2]
      exact drop_append_of_length _ _ 4 (leBytes_length 4 tl)
    have htake44 : (R2.drop 4).take 4 = leBytes 4 dl := by
      rw [hdrop4]
      exact take_append_of_length _ _ 4 (leBytes_length 4 dl)
    have hTlen : leNat (R2.take 4) = tl := by
      rw [htake4, leNat_leBytes, hpow]
      exact Nat.mod_eq_of_lt htl2
    have hDlen : leNat ((R2.drop 4).take 4) = dl := by
      rw [htake44, leNat_leBytes, hpow]
      exact Nat.mod_eq_of_lt hdl2
    have hlenR : R2.length = 32 + tail.length := by
      rw [hassoc2]
      simp only [List.length_append, leBytes_length, hp2]
      omega
    simp only [unpack7]
    rw [hTlen, hDlen,
        if_neg (show ¬R2.length < 32 by omega),
        if_pos (show R2.length < 32 + tl + dl + 8 by omega)]

theorem addMilestone_unpack_spec_witness :
    UnicornFactoryInstruction.unpack
      (7 :: (leBytes 4 1 ++ leBytes 4 1 ++ List.replicate 24 0
        ++ [65] ++ [66] ++ [5, 0, 0, 0, 0, 0, 0, 0]))
      = .ok (.AddMilestone [65] [66] 5)
    ∧ UnicornFactoryInstruction.unpack
      (7 :: (leBytes 4 1 ++ leBytes 4 1 ++ List.replicate 24 0
        ++ [65] ++ [255] ++ [5, 0, 0, 0, 0, 0, 0, 0]))
      = .error .InvalidInstructionData
    ∧ UnicornFactoryInstruction.unpack (7 :: [1, 0, 0, 0])
      = .error .InvalidInstructionData
    ∧ UnicornFactoryInstruction.unpack
      (7 :: (leBytes 4 1 ++ leBytes 4 0 ++ List.replicate 24 0 ++ [65]))
      = .error .InvalidInstructionData :=
  ⟨(addMilestone_unpack_spec [65] [66] (List.replicate 24 0)
      [5, 0, 0, 0, 0, 0, 0, 0]).1 rfl rfl (by decide) (by decide) rfl rfl,
   (addMilestone_unpack_spec [65] [255] (List.replicate 24 0)
      [5, 0, 0, 0, 0, 0, 0, 0]).2.2.1 rfl rfl (by decide) (by decide) rfl rfl,
   (addMilestone_unpack_spec [] [] [] []).2.2.2.1 [1, 0, 0, 0] (by decide),
   (addMilestone_unpack_spec [] [] [] []).2.2.2.2 1 0 (List.replicate 24 0) [65]
      rfl (by decide) (by decide) (by decide)⟩
